import Mathlib

/-!
Shallow embedding of the NanoCBOR decoder (`src/src/decoder.c`) together
with the compile-time recursion limit from `src/include/nanocbor/config.h`.

The backing buffer is a `List Nat` of byte values; pointers become `Nat`
indices into that list.  A read through a pointer is total in the model
(`List.getD _ _ 0`); wherever the C code dereferences memory outside the
buffer the model therefore yields the byte 0, and theorems about such
states say so explicitly.  Machine integers are `Nat`/`Int` with explicit
reduction modulo `2 ^ 32` where the C `uint32_t` arithmetic can wrap.

Outputs that the C code returns through pointers are returned as extra
components.  A C output that is only conditionally written is modelled as
an `Option`: `none` means the callee never stored through the pointer.
`_get_uint64` stores through its pointer with `memcpy(value, &tmp, bytes)`,
writing only the low `bytes` bytes of the destination, so its store is
reported as `some (value, bytes)` and each caller merges it into the prior
content of its own destination with `storeLow`, which keeps the
destination's bytes above the stored width.  Uninitialized C locals that
can flow into observable results are made explicit function parameters
(named `tmp0`, `len0`, `rem0`).

Modelled from the spec: the declarations of `nanocbor.h` (major-type
masks, simple values, error codes, iterator flag bits, width-class
selectors) are not part of the two source files; their values are fixed
here from the wire format of spec section 6 and the error taxonomy of
spec section 7 (errors are distinct negative integers, success is 0).
-/

/-- Modelled from the spec: success result code (a non-negative result). -/
def NANOCBOR_OK : Int := 0

/-- Modelled from the spec: distinct negative error for a width overflow. -/
def NANOCBOR_ERR_OVERFLOW : Int := -1

/-- Modelled from the spec: distinct negative error for a major-type mismatch. -/
def NANOCBOR_ERR_INVALID_TYPE : Int := -2

/-- Modelled from the spec: distinct negative error for reading past the end. -/
def NANOCBOR_ERR_END : Int := -3

/-- Modelled from the spec: distinct negative error for recursion exhaustion. -/
def NANOCBOR_ERR_RECURSION : Int := -4

/-- Modelled from the spec: top three bits of the initial byte hold the major type. -/
def NANOCBOR_TYPE_MASK : Nat := 0xE0

/-- Modelled from the spec: the major type occupies bits 5..7. -/
def NANOCBOR_TYPE_OFFSET : Nat := 5

/-- Modelled from the spec: low five bits of the initial byte hold the argument selector. -/
def NANOCBOR_VALUE_MASK : Nat := 0x1F

/-- Modelled from the spec: major type 0 (unsigned integer) shifted into place. -/
def NANOCBOR_MASK_UINT : Nat := 0x00

/-- Modelled from the spec: major type 1 (negative integer) shifted into place. -/
def NANOCBOR_MASK_NINT : Nat := 0x20

/-- Modelled from the spec: major type 2 (byte string) shifted into place. -/
def NANOCBOR_MASK_BSTR : Nat := 0x40

/-- Modelled from the spec: major type 3 (text string) shifted into place. -/
def NANOCBOR_MASK_TSTR : Nat := 0x60

/-- Modelled from the spec: major type 4 (array) shifted into place. -/
def NANOCBOR_MASK_ARR : Nat := 0x80

/-- Modelled from the spec: major type 5 (map) shifted into place. -/
def NANOCBOR_MASK_MAP : Nat := 0xA0

/-- Modelled from the spec: major type 7 (simple/float) shifted into place. -/
def NANOCBOR_MASK_FLOAT : Nat := 0xE0

/-- Modelled from the spec: simple value false (`0xF4 = 0xE0 + 20`). -/
def NANOCBOR_SIMPLE_FALSE : Nat := 20

/-- Modelled from the spec: simple value true (`0xF5 = 0xE0 + 21`). -/
def NANOCBOR_SIMPLE_TRUE : Nat := 21

/-- Modelled from the spec: simple value null (`0xF6 = 0xE0 + 22`). -/
def NANOCBOR_SIMPLE_NULL : Nat := 22

/-- Modelled from the spec: selector bound for a 4-byte argument
(selectors 24/25/26 pick 1/2/4 trailing bytes, so the uint32 width class
admits selectors up to 26). -/
def NANOCBOR_INT_VAL_UINT32 : Nat := 26

/-- Modelled from the spec: selector bound for an 8-byte argument. -/
def NANOCBOR_INT_VAL_UINT64 : Nat := 27

/-- Modelled from the spec: width class of `size_t`; the reference host has
64-bit `size_t`, so this equals the uint64 class. -/
def NANOCBOR_INT_VAL_SIZE : Nat := 27

/-- Modelled from the spec: flag bit marking an iterator over container contents. -/
def NANOCBOR_DECODER_FLAG_CONTAINER : Nat := 1

/-- Modelled from the spec: flag bit marking an indefinite-length container. -/
def NANOCBOR_DECODER_FLAG_INDEFINITE : Nat := 2

/-- From `src/include/nanocbor/config.h`: default recursion limit. -/
def NANOCBOR_RECURSION_MAX : Nat := 10

/-- Largest value of the C type `uint32_t`. -/
def UINT32_MAX : Nat := 4294967295

/-- Largest value of the C type `int32_t`. -/
def INT32_MAX : Nat := 2147483647

/-- The decoder iterator `nanocbor_value_t`.  `mem` is the whole backing
buffer; `start` and `end_` are the C pointers as indices into `mem`;
`remaining` is the `uint32_t` element counter and `flags` the bit set. -/
structure nanocbor_value_t where
  mem : List Nat
  start : Nat
  end_ : Nat
  remaining : Nat
  flags : Nat
deriving DecidableEq

/-- Dereference a byte pointer: total in the model, 0 outside the buffer. -/
def byteAt (mem : List Nat) (i : Nat) : Nat := mem.getD i 0

/-- Big-endian value of the `n` bytes starting at index `i` (the
`memcpy` + `be64toh` pair of `_get_uint64`). -/
def beBytes (mem : List Nat) (i n : Nat) : Nat :=
  (List.range n).foldl (fun acc k => acc * 256 + byteAt mem (i + k)) 0

/-- `uint32_t` decrement with wraparound (the C `remaining--`). -/
def dec32 (n : Nat) : Nat := (n + (UINT32_MAX)) % (UINT32_MAX + 1)

/-- Conversion of a `uint32_t` value to the C `int32_t` (two's complement). -/
def int32_of_uint32 (n : Nat) : Int :=
  if n % (UINT32_MAX + 1) ≤ INT32_MAX then (n % (UINT32_MAX + 1) : Int)
  else (n % (UINT32_MAX + 1) : Int) - (UINT32_MAX + 1)

/-- Content of a `w`-byte destination after the store reported by
`_get_uint64`: on `none` the destination keeps its prior content `old`;
on `some (m, nb)` the C wrote the low `nb` bytes of the decoded argument
into the destination's low `nb` bytes, leaving the bytes above `nb` (up
to the destination's width `w`) as they were — stale for an
uninitialized destination. -/
def storeLow (old w : Nat) (s : Option (Nat × Nat)) : Nat :=
  match s with
  | none => old % 256 ^ w
  | some (m, nb) =>
    if w ≤ nb then m % 256 ^ w
    else old % 256 ^ w / 256 ^ nb * 256 ^ nb + m % 256 ^ nb

/-- `nanocbor_decoder_init`.  The C function stores `start`, `end` and
`flags` only; the uninitialized `remaining` field is the explicit
parameter `rem0`. -/
def nanocbor_decoder_init (mem : List Nat) (buf len rem0 : Nat) : nanocbor_value_t :=
  { mem := mem, start := buf, end_ := buf + len, remaining := rem0, flags := 0 }

/-- `_get_type`: major-type bits of the current initial byte. -/
def _get_type (value : nanocbor_value_t) : Nat :=
  byteAt value.mem value.start &&& NANOCBOR_TYPE_MASK

/-- `nanocbor_get_type`: the major type as a small number. -/
def nanocbor_get_type (value : nanocbor_value_t) : Nat :=
  _get_type value >>> NANOCBOR_TYPE_OFFSET

/-- `nanocbor_at_end`.  Mutates the iterator when it consumes the break
byte of an indefinite container, so it returns the updated state. -/
def nanocbor_at_end (it : nanocbor_value_t) : Bool × nanocbor_value_t :=
  if it.flags &&& NANOCBOR_DECODER_FLAG_CONTAINER ≠ 0 then
    if it.flags &&& NANOCBOR_DECODER_FLAG_INDEFINITE ≠ 0 ∧
        byteAt it.mem it.start = 0xFF then
      (true, { it with start := it.start + 1 })
    else
      (it.remaining == 0, it)
  else
    (it.start ≥ it.end_, it)

/-- `_get_uint64`.  Returns the C result code and the store made through
the output pointer: `none` on every error path (the destination keeps
its prior content), `some (m, nb)` when the decoded argument `m` was
stored into the low `nb` bytes of the destination.  The extended path is
`memcpy(value, &tmp, bytes)`, writing exactly `bytes` bytes (the little-
endian host's low-order bytes, which hold the whole argument); the
inline path `*value = bytelen` is a full 8-byte store — for destinations
narrower than 8 bytes that C store also writes past the object, a
memory-layout effect outside the embedding, and leaves the destination
itself holding `bytelen`. -/
def _get_uint64 (cvalue : nanocbor_value_t) (max type : Nat) : Int × Option (Nat × Nat) :=
  let ctype := _get_type cvalue
  let bytelen := byteAt cvalue.mem cvalue.start &&& NANOCBOR_VALUE_MASK
  if type ≠ ctype then
    (NANOCBOR_ERR_INVALID_TYPE, none)
  else if bytelen < 24 then
    (1, some (bytelen, 8))
  else if bytelen > max then
    (NANOCBOR_ERR_OVERFLOW, none)
  else
    let bytes := 2 ^ (bytelen - 24)
    if cvalue.start + bytes > cvalue.end_ then
      (NANOCBOR_ERR_END, none)
    else
      ((1 : Int) + bytes, some (beBytes cvalue.mem (cvalue.start + 1) bytes, bytes))

/-- `_get_nint32`.  `tmp0` is the content of the uninitialized 4-byte C
local `tmp`: it survives whole when `_get_uint64` stores nothing, and its
bytes above the stored width survive when `_get_uint64` stores only 1 or
2 bytes.  The second component is the value stored through the output
pointer, when any. -/
def _get_nint32 (cvalue : nanocbor_value_t) (tmp0 : Nat) (type : Nat) :
    Int × Option Int :=
  let r := _get_uint64 cvalue NANOCBOR_INT_VAL_UINT32 type
  let tmp := storeLow tmp0 4 r.2
  if tmp ≤ INT32_MAX then
    (r.1, some (-(tmp : Int) - 1))
  else
    (NANOCBOR_ERR_OVERFLOW, none)

/-- `_advance`: move the cursor by `res` bytes and decrement `remaining`
(unconditionally, with `uint32_t` wraparound). -/
def _advance (cvalue : nanocbor_value_t) (res : Int) : nanocbor_value_t :=
  { cvalue with start := cvalue.start + res.toNat,
                remaining := dec32 cvalue.remaining }

/-- `_advance_if`: advance only on a positive result code. -/
def _advance_if (cvalue : nanocbor_value_t) (res : Int) : Int × nanocbor_value_t :=
  if res > 0 then (res, _advance cvalue res) else (res, cvalue)

/-- `nanocbor_get_uint32`.  `value0` is the prior content of the caller's
output variable; the third component is its content after the call. -/
def nanocbor_get_uint32 (cvalue : nanocbor_value_t) (value0 : Nat) :
    Int × nanocbor_value_t × Nat :=
  let r := _get_uint64 cvalue NANOCBOR_INT_VAL_UINT32 NANOCBOR_MASK_UINT
  let a := _advance_if cvalue r.1
  (a.1, a.2, storeLow value0 4 r.2)

/-- `nanocbor_get_int32`.  `tmp0` is the uninitialized local of the
nested `_get_nint32` call; the third component is the content of the
caller's output variable after the call (the C stores `intermediate`
into it unconditionally before the error check, so it is always
overwritten). -/
def nanocbor_get_int32 (cvalue : nanocbor_value_t) (tmp0 : Nat) :
    Int × nanocbor_value_t × Int :=
  let r := _get_uint64 cvalue NANOCBOR_INT_VAL_UINT32 NANOCBOR_MASK_UINT
  let intermediate := storeLow 0 4 r.2
  let value : Int := int32_of_uint32 intermediate
  let rv :=
    if r.1 = NANOCBOR_ERR_INVALID_TYPE then
      let n := _get_nint32 cvalue tmp0 NANOCBOR_MASK_NINT
      (n.1, n.2.getD value)
    else
      (r.1, value)
  let a := _advance_if cvalue rv.1
  (a.1, a.2, rv.2)

/-- `_get_str`.  `len0` is the prior content of the caller's length
variable (read by the bounds check when the header parse fails without
writing it).  Result components: result code, new iterator state, the
slice start index stored through `buf` (when stored), and the content of
the length variable after the call. -/
def _get_str (cvalue : nanocbor_value_t) (len0 : Nat) (type : Nat) :
    Int × nanocbor_value_t × Option Nat × Nat :=
  let r := _get_uint64 cvalue NANOCBOR_INT_VAL_SIZE type
  let len := storeLow len0 8 r.2
  if cvalue.end_ < cvalue.start ∨ cvalue.end_ - cvalue.start < len then
    (NANOCBOR_ERR_END, cvalue, none, len)
  else
    let a := _advance_if cvalue r.1
    if a.1 > 0 then
      (a.1, { a.2 with start := a.2.start + len }, some a.2.start, len)
    else
      (a.1, a.2, none, len)

/-- `nanocbor_get_bstr`. -/
def nanocbor_get_bstr (cvalue : nanocbor_value_t) (len0 : Nat) :
    Int × nanocbor_value_t × Option Nat × Nat :=
  _get_str cvalue len0 NANOCBOR_MASK_BSTR

/-- `nanocbor_get_tstr`. -/
def nanocbor_get_tstr (cvalue : nanocbor_value_t) (len0 : Nat) :
    Int × nanocbor_value_t × Option Nat × Nat :=
  _get_str cvalue len0 NANOCBOR_MASK_TSTR

/-- `nanocbor_get_null`. -/
def nanocbor_get_null (cvalue : nanocbor_value_t) : Int × nanocbor_value_t :=
  if byteAt cvalue.mem cvalue.start = NANOCBOR_MASK_FLOAT ||| NANOCBOR_SIMPLE_NULL then
    (NANOCBOR_OK, _advance cvalue 1)
  else
    (NANOCBOR_ERR_INVALID_TYPE, cvalue)

/-- `nanocbor_get_bool`.  The third component is the value stored through
the output pointer, when any. -/
def nanocbor_get_bool (cvalue : nanocbor_value_t) :
    Int × nanocbor_value_t × Option Bool :=
  if byteAt cvalue.mem cvalue.start &&& (NANOCBOR_TYPE_MASK ||| (NANOCBOR_VALUE_MASK - 1))
      = NANOCBOR_MASK_FLOAT ||| NANOCBOR_SIMPLE_FALSE then
    (NANOCBOR_OK, _advance cvalue 1,
      some (byteAt cvalue.mem cvalue.start &&& 0x01 ≠ 0))
  else
    (NANOCBOR_ERR_INVALID_TYPE, cvalue, none)

/-- `_enter_container`.  Returns the C result code and the child
iterator.  `rem0` is the child's uninitialized `remaining` field for the
failing path on which `_get_uint64` never writes it.  On that failing
path the C also leaves the child's `start` and `flags` uninitialized;
they are modelled as `it.start` and `0` — no settled claim reads them. -/
def _enter_container (it : nanocbor_value_t) (rem0 : Nat) (type : Nat) :
    Int × nanocbor_value_t :=
  if byteAt it.mem it.start &&& 0x1F = 0x1F then
    (NANOCBOR_OK,
      { mem := it.mem, start := it.start + 1, end_ := it.end_,
        remaining := UINT32_MAX,
        flags := NANOCBOR_DECODER_FLAG_INDEFINITE ||| NANOCBOR_DECODER_FLAG_CONTAINER })
  else
    let r := _get_uint64 it NANOCBOR_INT_VAL_UINT32 type
    if r.1 < 0 then
      (r.1, { mem := it.mem, start := it.start, end_ := it.end_,
              remaining := rem0, flags := 0 })
    else
      (NANOCBOR_OK,
        { mem := it.mem, start := it.start + r.1.toNat, end_ := it.end_,
          remaining := storeLow rem0 4 r.2, flags := NANOCBOR_DECODER_FLAG_CONTAINER })

/-- `nanocbor_enter_array`. -/
def nanocbor_enter_array (it : nanocbor_value_t) (rem0 : Nat) :
    Int × nanocbor_value_t :=
  _enter_container it rem0 NANOCBOR_MASK_ARR

/-- `nanocbor_enter_map`: enter, then reject counts whose doubling would
wrap `uint32_t`, then double the count. -/
def nanocbor_enter_map (it : nanocbor_value_t) (rem0 : Nat) :
    Int × nanocbor_value_t :=
  let r := _enter_container it rem0 NANOCBOR_MASK_MAP
  if r.2.remaining > UINT32_MAX / 2 then
    (NANOCBOR_ERR_OVERFLOW, r.2)
  else
    (r.1, { r.2 with remaining := r.2.remaining * 2 % (UINT32_MAX + 1) })

/-- `nanocbor_leave_container`: propagate the child's position to the
parent and decrement the parent's count when its flags equal exactly the
container flag. -/
def nanocbor_leave_container (it array : nanocbor_value_t) : nanocbor_value_t :=
  let it := { it with start := array.start }
  if it.flags = NANOCBOR_DECODER_FLAG_CONTAINER then
    { it with remaining := dec32 it.remaining }
  else
    it

/-- `_skip_simple`: consume one header (argument discarded). -/
def _skip_simple (it : nanocbor_value_t) : Int × nanocbor_value_t :=
  let r := _get_uint64 it NANOCBOR_INT_VAL_UINT64 (_get_type it)
  _advance_if it r.1

/-- `nanocbor_skip_simple`. -/
def nanocbor_skip_simple (it : nanocbor_value_t) : Int × nanocbor_value_t :=
  _skip_simple it

/-- `_skip_limited` together with its inner `while` loop, merged into a
single recursion on an explicit `fuel` (the C loop has no syntactic
bound; `none` means the fuel ran out before the C control flow finished,
and every theorem below evaluates with fuel large enough that this never
happens).  `inloop = false` is the body of `_skip_limited`; `inloop =
true` is its `while (!nanocbor_at_end(&recurse))` loop, with `res` the
value of the C variable `res` entering the iteration.  The C locals
`recurse` (before `_enter_container` writes it) and `len` are
uninitialized; the failing-enter path is modelled per `_enter_container`,
`len` as 0, and no settled claim exercises either. -/
def _skip_go (fuel : Nat) (inloop : Bool) (it : nanocbor_value_t) (limit : Nat) (res : Int) :
    Option (Int × nanocbor_value_t) :=
  match fuel with
  | 0 => none
  | fuel + 1 =>
    if inloop then
      let a := nanocbor_at_end it
      if a.1 then
        some (res, a.2)
      else
        match _skip_go fuel false a.2 (limit - 1) 0 with
        | none => none
        | some (res', it') =>
          if res' < 0 then some (res', it')
          else _skip_go fuel true it' limit res'
    else
      if limit = 0 then
        some (NANOCBOR_ERR_RECURSION, it)
      else
        let type := _get_type it
        if type = NANOCBOR_MASK_BSTR ∨ type = NANOCBOR_MASK_TSTR then
          let r := _get_str it 0 type
          some (r.1, r.2.1)
        else if type = NANOCBOR_MASK_ARR ∨ type = NANOCBOR_MASK_MAP then
          let e := if type = NANOCBOR_MASK_MAP then nanocbor_enter_map it 0
                   else nanocbor_enter_array it 0
          let body := if e.1 < 0 then some (e.1, e.2)
                      else _skip_go fuel true e.2 limit e.1
          match body with
          | none => none
          | some (r, recurse) => some (r, nanocbor_leave_container it recurse)
        else
          some (_skip_simple it)

/-- `_skip_limited`: entry point of the bounded-recursion skip. -/
def _skip_limited (fuel : Nat) (it : nanocbor_value_t) (limit : Nat) :
    Option (Int × nanocbor_value_t) :=
  _skip_go fuel false it limit 0

/-- `nanocbor_skip`: skip one item with the configured depth budget. -/
def nanocbor_skip (fuel : Nat) (it : nanocbor_value_t) :
    Option (Int × nanocbor_value_t) :=
  _skip_limited fuel it NANOCBOR_RECURSION_MAX

/-- Helper: `_advance_if` always returns the result code it was given. -/
theorem advance_if_fst (v : nanocbor_value_t) (res : Int) :
    (_advance_if v res).1 = res := by
  unfold _advance_if
  split <;> rfl

/-- Helper: `_advance_if` leaves the iterator untouched on a non-positive
result code. -/
theorem advance_if_of_nonpos (v : nanocbor_value_t) (res : Int) (h : res ≤ 0) :
    (_advance_if v res).2 = v := by
  unfold _advance_if
  split
  next hp => exact absurd hp (not_lt.mpr h)
  next => rfl

/-- Claim C1 fails on the code (code bug).  On the one-byte buffer
`[0x41]` — a byte string declaring a 1-byte payload with no payload byte,
so header plus declared length extend past the iterator's end —
`nanocbor_get_bstr` returns success (1) and a slice starting at index 1
of length 1, i.e. the half-open range `[1, 2)`, although `end_ = 1`: the
bounds check `end - start < len` is made with `start` still at the
header, undercounting by the header size, so an out-of-bounds slice is
returned instead of the End error the claim requires. -/
theorem C1_get_bstr_returns_out_of_bounds_slice :
    nanocbor_get_bstr (nanocbor_decoder_init [0x41] 0 1 0) 0 =
      (1, ⟨[0x41], 2, 1, 4294967295, 0⟩, some 1, 1) ∧
    (0 : Int) < 1 ∧ 1 + 1 > (nanocbor_decoder_init [0x41] 0 1 0).end_ := by
  decide

/-- Claim C2 fails on the code (code bug).  On the claim's own scenario,
the one-byte buffer `[0x18]` (an unsigned-int header declaring one
following argument byte that is absent), `nanocbor_get_uint32` does not
return the End error with the cursor unchanged: the bounds check
`start + bytes > end` admits `start + bytes = end`, so the call reads
the modelled byte at index 1 — one past `end_ = 1`, outside the buffer —
and returns success (2) with the cursor advanced to 2.  The second
conjunct shows the same for a byte string whose payload is truncated
(`[0x58, 0x02, 0xAA]`, a strict prefix of the 4-byte encoding
`[0x58, 0x02, 0xAA, 0xBB]`): success (2) with a slice `[2, 4)` past
`end_ = 3` instead of the End error. -/
theorem C2_truncated_item_reads_succeed :
    (nanocbor_get_uint32 (nanocbor_decoder_init [0x18] 0 1 0) 0 =
      (2, ⟨[0x18], 2, 1, 4294967295, 0⟩, byteAt [0x18] 1) ∧
     (2 : Int) ≠ NANOCBOR_ERR_END) ∧
    nanocbor_get_bstr (nanocbor_decoder_init [0x58, 0x02, 0xAA] 0 3 0) 0 =
      (2, ⟨[0x58, 0x02, 0xAA], 4, 3, 4294967295, 0⟩, some 2, 2) := by
  decide

/-- Claim C3 fails on the code (code bug).  On `[0xBF, 0xFF]` (an empty
indefinite-length map) `_enter_container` itself succeeds and builds
exactly the child the claim describes — flags
`IS_INDEFINITE | IS_CONTAINER`, start one past the initial byte,
`remaining` the `UINT32_MAX` sentinel — but `nanocbor_enter_map` then
runs its count-doubling overflow check on that sentinel
(`UINT32_MAX > UINT32_MAX / 2`) and returns the Overflow error, so
entering any indefinite-length map fails instead of succeeding. -/
theorem C3_enter_map_indefinite_overflow :
    (nanocbor_enter_map (nanocbor_decoder_init [0xBF, 0xFF] 0 2 0) 0).1 =
      NANOCBOR_ERR_OVERFLOW ∧
    _enter_container (nanocbor_decoder_init [0xBF, 0xFF] 0 2 0) 0 NANOCBOR_MASK_MAP =
      (NANOCBOR_OK, ⟨[0xBF, 0xFF], 1, 2, UINT32_MAX,
        NANOCBOR_DECODER_FLAG_INDEFINITE ||| NANOCBOR_DECODER_FLAG_CONTAINER⟩) := by
  decide

/-- Claim C4 (confirmed): every accessor that can return an error leaves
the iterator exactly as it was whenever it does — for all iterator
states and all prior contents of the caller's output variables,
`nanocbor_get_uint32`, `nanocbor_get_int32`, `nanocbor_get_bool`,
`nanocbor_get_null`, `nanocbor_get_bstr` and `nanocbor_get_tstr` return
the input state unchanged on every negative result.  The two remaining
accessors of the claim, `nanocbor_enter_array` and `nanocbor_enter_map`,
never write to the parent iterator in the source (no assignment through
`it` in `_enter_container`), which the embedding mirrors by returning
only the child, so the parent is unchanged there by construction. -/
theorem C4_accessors_unchanged_on_error :
    ∀ (v : nanocbor_value_t) (value0 tmp0 len0 : Nat),
      ((nanocbor_get_uint32 v value0).1 < 0 → (nanocbor_get_uint32 v value0).2.1 = v) ∧
      ((nanocbor_get_int32 v tmp0).1 < 0 → (nanocbor_get_int32 v tmp0).2.1 = v) ∧
      ((nanocbor_get_bool v).1 < 0 → (nanocbor_get_bool v).2.1 = v) ∧
      ((nanocbor_get_null v).1 < 0 → (nanocbor_get_null v).2 = v) ∧
      ((nanocbor_get_bstr v len0).1 < 0 → (nanocbor_get_bstr v len0).2.1 = v) ∧
      ((nanocbor_get_tstr v len0).1 < 0 → (nanocbor_get_tstr v len0).2.1 = v) := by
  intro v value0 tmp0 len0
  refine ⟨?_, ?_, ?_, ?_, ?_, ?_⟩
  · simp only [nanocbor_get_uint32, advance_if_fst]
    intro h
    exact advance_if_of_nonpos _ _ h.le
  · simp only [nanocbor_get_int32, advance_if_fst]
    intro h
    exact advance_if_of_nonpos _ _ h.le
  · simp only [nanocbor_get_bool]
    split
    next =>
      intro h
      norm_num [NANOCBOR_OK] at h
    next =>
      intro _
      rfl
  · simp only [nanocbor_get_null]
    split
    next =>
      intro h
      norm_num [NANOCBOR_OK] at h
    next =>
      intro _
      rfl
  · simp only [nanocbor_get_bstr, _get_str]
    split
    next =>
      intro _
      rfl
    next =>
      split
      next hp =>
        rw [advance_if_fst] at hp
        intro h
        rw [advance_if_fst] at h
        exact absurd hp (not_lt.mpr h.le)
      next hp =>
        rw [advance_if_fst] at hp
        intro _
        exact advance_if_of_nonpos _ _ (not_lt.mp hp)
  · simp only [nanocbor_get_tstr, _get_str]
    split
    next =>
      intro _
      rfl
    next =>
      split
      next hp =>
        rw [advance_if_fst] at hp
        intro h
        rw [advance_if_fst] at h
        exact absurd hp (not_lt.mpr h.le)
      next hp =>
        rw [advance_if_fst] at hp
        intro _
        exact advance_if_of_nonpos _ _ (not_lt.mp hp)

/-- Witness for C4: `nanocbor_get_uint32` on the negative-integer byte
`[0x20]` fails, and by the theorem the iterator is returned unchanged. -/
theorem C4_accessors_unchanged_on_error_witness :
    (nanocbor_get_uint32 (nanocbor_decoder_init [0x20] 0 1 0) 0).1 < 0 ∧
    (nanocbor_get_uint32 (nanocbor_decoder_init [0x20] 0 1 0) 0).2.1 =
      nanocbor_decoder_init [0x20] 0 1 0 :=
  ⟨by decide,
    (C4_accessors_unchanged_on_error (nanocbor_decoder_init [0x20] 0 1 0) 0 0 0).1
      (by decide)⟩

/-- Counterexample to claim C5: inside an indefinite-length container the
count is decremented after all.  Entering the indefinite array
`[0x9F, 0x01, 0xFF]` yields a child with the indefinite and container
flags and `remaining = UINT32_MAX`; a successful `nanocbor_get_uint32`
on that child then leaves `remaining = UINT32_MAX - 1` — a decrement on
a successful top-level read inside an indefinite container, which the
claim says never happens. -/
theorem C5_counterexample_indefinite_decrement :
    (nanocbor_enter_array (nanocbor_decoder_init [0x9F, 0x01, 0xFF] 0 3 0) 0).2.flags =
      (NANOCBOR_DECODER_FLAG_INDEFINITE ||| NANOCBOR_DECODER_FLAG_CONTAINER) ∧
    (nanocbor_enter_array (nanocbor_decoder_init [0x9F, 0x01, 0xFF] 0 3 0) 0).2.remaining =
      UINT32_MAX ∧
    (nanocbor_get_uint32
        (nanocbor_enter_array (nanocbor_decoder_init [0x9F, 0x01, 0xFF] 0 3 0) 0).2 0).1 = 1 ∧
    (nanocbor_get_uint32
        (nanocbor_enter_array (nanocbor_decoder_init [0x9F, 0x01, 0xFF] 0 3 0) 0).2 0).2.1.remaining =
      UINT32_MAX - 1 := by
  decide

/-- Claim C5 as amended: `_advance` (reached through `_advance_if` by
every successful item read) decrements `remaining` unconditionally —
regardless of the container and indefinite flags, so also for top-level
non-container iterators and indefinite containers — as a `uint32_t`,
wrapping from 0 to `2^32 - 1` (the counter is modular, it does not stop
at zero); on a non-positive result code the iterator is unchanged; and
`nanocbor_leave_container` decrements the parent's count exactly when
the parent's flags equal the container flag alone. -/
theorem C5_advance_decrements_unconditionally :
    ∀ (v w : nanocbor_value_t) (res : Int),
      (0 < res →
        (_advance_if v res).2.start = v.start + res.toNat ∧
        (_advance_if v res).2.remaining = (v.remaining + UINT32_MAX) % (UINT32_MAX + 1) ∧
        (_advance_if v res).2.flags = v.flags ∧
        (_advance_if v res).2.end_ = v.end_) ∧
      (res ≤ 0 → (_advance_if v res).2 = v) ∧
      (nanocbor_leave_container v w).start = w.start ∧
      (nanocbor_leave_container v w).remaining =
        (if v.flags = NANOCBOR_DECODER_FLAG_CONTAINER then
          (v.remaining + UINT32_MAX) % (UINT32_MAX + 1)
         else v.remaining) := by
  intro v w res
  refine ⟨?_, ?_, ?_, ?_⟩
  · intro h
    simp only [_advance_if, if_pos h, _advance, dec32]
    exact ⟨trivial, trivial, trivial, trivial⟩
  · intro h
    exact advance_if_of_nonpos _ _ h
  · simp only [nanocbor_leave_container]
    split
    next => rfl
    next => rfl
  · simp only [nanocbor_leave_container, dec32]
    split
    next => rfl
    next => rfl

/-- Witness for C5: a successful advance of 1 on an indefinite-container
state moves the cursor and decrements the wrapped counter. -/
theorem C5_advance_decrements_unconditionally_witness :
    (_advance_if ⟨[0x9F, 0x01, 0xFF], 1, 3, 4294967295, 3⟩ 1).2.start = 2 ∧
    (_advance_if ⟨[0x9F, 0x01, 0xFF], 1, 3, 4294967295, 3⟩ 1).2.remaining =
      (4294967295 + UINT32_MAX) % (UINT32_MAX + 1) :=
  ⟨((C5_advance_decrements_unconditionally
      ⟨[0x9F, 0x01, 0xFF], 1, 3, 4294967295, 3⟩
      ⟨[0x9F, 0x01, 0xFF], 1, 3, 4294967295, 3⟩ 1).1 (by decide)).1,
   ((C5_advance_decrements_unconditionally
      ⟨[0x9F, 0x01, 0xFF], 1, 3, 4294967295, 3⟩
      ⟨[0x9F, 0x01, 0xFF], 1, 3, 4294967295, 3⟩ 1).1 (by decide)).2.1⟩

/-- Counterexample to claim C6: on `[0x1C]` (major type unsigned-int,
argument selector 28) `nanocbor_get_uint32` fails with the Overflow
error, not the InvalidType error the claim names: the selector falls
into the `bytelen > max` width check before any reserved-selector
handling. -/
theorem C6_counterexample_selector28 :
    (nanocbor_get_uint32 (nanocbor_decoder_init [0x1C] 0 1 0) 0).1 =
      NANOCBOR_ERR_OVERFLOW ∧
    NANOCBOR_ERR_OVERFLOW ≠ NANOCBOR_ERR_INVALID_TYPE := by
  decide

/-- Claim C6 as amended: for an initial byte whose argument selector lies
in 28..30, the header parser fails — with InvalidType when the expected
major type differs from the one on the buffer (that check runs first),
and otherwise with Overflow, for every width bound `max ≤ 27` (every
caller passes one of the width-class selector bounds, all at most 27, so
28..30 always exceed it). -/
theorem C6_reserved_selectors_error :
    ∀ (v : nanocbor_value_t) (max t : Nat),
      max ≤ 27 →
      28 ≤ byteAt v.mem v.start &&& NANOCBOR_VALUE_MASK →
      byteAt v.mem v.start &&& NANOCBOR_VALUE_MASK ≤ 30 →
      (_get_uint64 v max t).1 =
        if t ≠ byteAt v.mem v.start &&& NANOCBOR_TYPE_MASK then NANOCBOR_ERR_INVALID_TYPE
        else NANOCBOR_ERR_OVERFLOW := by
  intro v max t hmax h28 _h30
  simp only [_get_uint64, _get_type]
  split
  next => rfl
  next hne =>
    rw [if_neg (by omega), if_pos (by omega)]

/-- Witness for C6: the header parser applied to `[0x1D]` (selector 29)
with the uint32 width bound and expected type unsigned-int. -/
theorem C6_reserved_selectors_error_witness :
    (_get_uint64 (nanocbor_decoder_init [0x1D] 0 1 0) 26 0).1 =
      if (0 : Nat) ≠ byteAt (nanocbor_decoder_init [0x1D] 0 1 0).mem
          (nanocbor_decoder_init [0x1D] 0 1 0).start &&& NANOCBOR_TYPE_MASK then
        NANOCBOR_ERR_INVALID_TYPE
      else NANOCBOR_ERR_OVERFLOW :=
  C6_reserved_selectors_error (nanocbor_decoder_init [0x1D] 0 1 0) 26 0
    (by decide) (by decide) (by decide)

/-- Claim C7 (confirmed): `nanocbor_skip` on a definite array nesting
`NANOCBOR_RECURSION_MAX + 1 = 11` array levels (ten one-element arrays
around an innermost empty array, bytes `0x81 × 10 ++ [0x80]`) fails with
the Recursion error, while the same structure with one fewer level
succeeds; the fuel 64 strictly bounds only the model's loop unfolding
and is not reached on either input. -/
theorem C7_skip_recursion_budget :
    (nanocbor_skip 64 (nanocbor_decoder_init
        (List.replicate NANOCBOR_RECURSION_MAX 0x81 ++ [0x80]) 0
        (NANOCBOR_RECURSION_MAX + 1) 0)).map Prod.fst = some NANOCBOR_ERR_RECURSION ∧
    (nanocbor_skip 64 (nanocbor_decoder_init
        (List.replicate (NANOCBOR_RECURSION_MAX - 1) 0x81 ++ [0x80]) 0
        NANOCBOR_RECURSION_MAX 0)).map Prod.fst = some NANOCBOR_OK := by
  decide

/-- Claim C8 fails on the code (code bug).  The retry logic is as the
claim says (unsigned-int attempt, type failure, retry with negative-int
at the unchanged position), but for a well-formed negative integer whose
argument is carried in 1 or 2 trailing bytes the result is not
determined by the decoded magnitude `m`: `memcpy(value, &tmp, bytes)`
stores only `bytes` bytes into `_get_nint32`'s uninitialized 4-byte
local `tmp`, so the stale upper bytes (parameter `tmp0`) survive into
`-(tmp) - 1`.  On `[0x38, 0x05]` (magnitude 5, selector 24): with clean
garbage 0 the call returns the intended `-6`; with garbage `0x100` it
returns `-262`; with garbage `2^31` the stale byte even pushes `tmp`
past `INT32_MAX` and the call fails with Overflow, cursor unchanged,
output left 0 — three different outcomes on the same well-formed input,
contradicting the claim's rule that `m` alone decides between
`-(m) - 1` and Overflow. -/
theorem C8_get_int32_stale_upper_bytes :
    nanocbor_get_int32 (nanocbor_decoder_init [0x38, 0x05] 0 2 0) 0 =
      (2, ⟨[0x38, 0x05], 2, 2, 4294967295, 0⟩, -6) ∧
    nanocbor_get_int32 (nanocbor_decoder_init [0x38, 0x05] 0 2 0) 256 =
      (2, ⟨[0x38, 0x05], 2, 2, 4294967295, 0⟩, -262) ∧
    nanocbor_get_int32 (nanocbor_decoder_init [0x38, 0x05] 0 2 0) 2147483648 =
      (NANOCBOR_ERR_OVERFLOW, nanocbor_decoder_init [0x38, 0x05] 0 2 0, 0) := by
  decide

/-- Counterexample to claim C9: an indefinite-container state whose
current byte is not `0xFF` on which `nanocbor_at_end` returns true, not
the false the claim asserts — the code answers `remaining == 0` for
every container whose current byte is not a break byte, and here
`remaining = 0` (the state has `start ≥ end_`, as in the claim's
truncation scenario). -/
theorem C9_counterexample_count_test :
    (nanocbor_at_end ⟨[0x00], 0, 0, 0,
        NANOCBOR_DECODER_FLAG_INDEFINITE ||| NANOCBOR_DECODER_FLAG_CONTAINER⟩).1 = true := by
  decide

/-- Claim C9 as amended: for every container iterator `nanocbor_at_end`
never consults the byte bound `end_` — its answer is unchanged under any
replacement of `end_` — and it returns `remaining == 0` whenever the
iterator is not an indefinite container sitting on the break byte `0xFF`
(in particular for every definite container, and for an indefinite
container with a non-break current byte it returns false exactly when
`remaining ≠ 0`, e.g. while the sentinel has not been decremented to 0);
on an indefinite container at `0xFF` it returns true and consumes the
break byte. -/
theorem C9_at_end_container_ignores_end_bound :
    ∀ (v : nanocbor_value_t) (x : Nat),
      v.flags &&& NANOCBOR_DECODER_FLAG_CONTAINER ≠ 0 →
      (¬(v.flags &&& NANOCBOR_DECODER_FLAG_INDEFINITE ≠ 0 ∧ byteAt v.mem v.start = 0xFF) →
        (nanocbor_at_end v).1 = (v.remaining == 0)) ∧
      ((v.flags &&& NANOCBOR_DECODER_FLAG_INDEFINITE ≠ 0 ∧ byteAt v.mem v.start = 0xFF) →
        nanocbor_at_end v = (true, { v with start := v.start + 1 })) ∧
      (nanocbor_at_end { v with end_ := x }).1 = (nanocbor_at_end v).1 := by
  intro v x hc
  refine ⟨?_, ?_, ?_⟩
  · intro hn
    simp only [nanocbor_at_end, if_pos hc, if_neg hn]
  · intro hy
    simp only [nanocbor_at_end, if_pos hc, if_pos hy]
  · by_cases hy : v.flags &&& NANOCBOR_DECODER_FLAG_INDEFINITE ≠ 0 ∧ byteAt v.mem v.start = 0xFF
    · simp only [nanocbor_at_end, if_pos hc, if_pos hy]
    · simp only [nanocbor_at_end, if_pos hc, if_neg hy]

/-- Witness for C9: a definite container with `remaining = 5` is not at
its end, and replacing its byte bound does not change the answer. -/
theorem C9_at_end_container_ignores_end_bound_witness :
    (nanocbor_at_end ⟨[0x00], 0, 0, 5, 1⟩).1 = ((5 : Nat) == 0) ∧
    (nanocbor_at_end { (⟨[0x00], 0, 0, 5, 1⟩ : nanocbor_value_t) with end_ := 9 }).1 =
      (nanocbor_at_end ⟨[0x00], 0, 0, 5, 1⟩).1 :=
  ⟨(C9_at_end_container_ignores_end_bound ⟨[0x00], 0, 0, 5, 1⟩ 9 (by decide)).1 (by decide),
   (C9_at_end_container_ignores_end_bound ⟨[0x00], 0, 0, 5, 1⟩ 9 (by decide)).2.2⟩

/-- Claim C10 (confirmed): `nanocbor_get_int32` writes through its output
pointer before the error check completes.  On `[0x40]` (an empty byte
string — neither an unsigned nor a negative integer) the call returns
the InvalidType error and leaves the cursor unchanged, yet the output
variable is overwritten: the C stores `*value = intermediate`
unconditionally, and `_get_nint32` then stores `-(tmp) - 1` computed
from its uninitialized local `tmp` — which `_get_uint64` never stores
into on this path, so `tmp` is the whole garbage `tmp0` (any value
within `INT32_MAX`) — and the final content is `-(tmp0) - 1` whatever
the caller had there before. -/
theorem C10_get_int32_output_written_on_error :
    ∀ tmp0 : Nat, tmp0 ≤ INT32_MAX →
      nanocbor_get_int32 (nanocbor_decoder_init [0x40] 0 1 0) tmp0 =
        (NANOCBOR_ERR_INVALID_TYPE, nanocbor_decoder_init [0x40] 0 1 0,
          -(tmp0 : Int) - 1) := by
  intro tmp0 h
  have hlt : tmp0 % 256 ^ 4 = tmp0 := by
    apply Nat.mod_eq_of_lt
    simp only [INT32_MAX] at h
    norm_num
    omega
  have h0 : _get_uint64 (nanocbor_decoder_init [0x40] 0 1 0) NANOCBOR_INT_VAL_UINT32
      NANOCBOR_MASK_UINT = (NANOCBOR_ERR_INVALID_TYPE, none) := by decide
  have h1 : _get_uint64 (nanocbor_decoder_init [0x40] 0 1 0) NANOCBOR_INT_VAL_UINT32
      NANOCBOR_MASK_NINT = (NANOCBOR_ERR_INVALID_TYPE, none) := by decide
  simp only [nanocbor_get_int32, h0, _get_nint32, h1, storeLow, hlt,
    if_pos h, _advance_if, _advance]
  simp [NANOCBOR_ERR_INVALID_TYPE]

/-- Witness for C10: with prior garbage 5 in the nested local, the failed
call still stores `-6` into the output variable. -/
theorem C10_get_int32_output_written_on_error_witness :
    nanocbor_get_int32 (nanocbor_decoder_init [0x40] 0 1 0) 5 =
      (NANOCBOR_ERR_INVALID_TYPE, nanocbor_decoder_init [0x40] 0 1 0,
        -((5 : Nat) : Int) - 1) :=
  C10_get_int32_output_written_on_error 5 (by decide)
